import Mathlib

/-!
Verification development for `src/core/site_generator.py` of the
static-site-generator repository.

The Python string and dict operations the generator uses are modelled by
kernel-computable Lean functions over `List Char` and insertion-ordered
association lists.  The external collaborators (the Markdown-to-HTML
converter `markdown.markdown` and the Jinja2 rendering engine) are abstract
function parameters; template resolution (`Environment.get_template`) is a
name lookup that can fail.
-/

namespace SiteGen

/-! ### Models of the Python `str` primitives used by the generator -/

/-- Python `s.startswith(pre)`. -/
def pyStartsWith (s pre : String) : Bool :=
  pre.toList.isPrefixOf s.toList

/-- Python `s.endswith(suf)`. -/
def pyEndsWith (s suf : String) : Bool :=
  suf.toList.isSuffixOf s.toList

/-- Python `s.strip()` (over the common ASCII whitespace characters). -/
def pyStrip (s : String) : String :=
  String.mk (((s.toList.dropWhile Char.isWhitespace).reverse.dropWhile Char.isWhitespace).reverse)

/-- Split a character list at every occurrence of `sep`: Python `s.split(sep)`
for a one-character separator. -/
def splitChar (sep : Char) : List Char → List (List Char)
  | [] => [[]]
  | c :: cs =>
    match splitChar sep cs with
    | [] => [[]]
    | g :: gs => if c = sep then [] :: g :: gs else (c :: g) :: gs

/-- Python `s.split(sep)` for a one-character separator. -/
def pySplit (s : String) (sep : Char) : List String :=
  (splitChar sep s.toList).map String.mk

/-- Python `sep.join(lines)`. -/
def pyJoin (sep : String) : List String → String
  | [] => ""
  | [x] => x
  | x :: xs => x ++ sep ++ pyJoin sep xs

/-- The characters before and after the first colon, when the line has one:
the two-part outcome of Python `line.split(':', 1)`. -/
def breakAtColon : List Char → Option (List Char × List Char)
  | [] => none
  | c :: cs =>
    if c = ':' then some ([], cs)
    else (breakAtColon cs).map (fun p => (c :: p.1, p.2))

/-- Python `line.split(':', 1)` when it yields two parts (`none` when the
line has no colon). -/
def splitFirstColon (l : String) : Option (String × String) :=
  (breakAtColon l.toList).map (fun p => (String.mk p.1, String.mk p.2))

/-- Python `s.replace(pat, rep)`: replace every non-overlapping occurrence,
scanning left to right.  `fuel` bounds the recursion; `s.length` steps always
suffice for the nonempty patterns the generator uses. -/
def pyReplaceAux (pat rep : List Char) : Nat → List Char → List Char
  | _, [] => []
  | 0, s => s
  | fuel + 1, c :: cs =>
    if pat.isPrefixOf (c :: cs) ∧ pat ≠ [] then
      rep ++ pyReplaceAux pat rep fuel ((c :: cs).drop pat.length)
    else
      c :: pyReplaceAux pat rep fuel cs

/-- Python `s.replace(pat, rep)`. -/
def pyReplace (s pat rep : String) : String :=
  String.mk (pyReplaceAux pat.toList rep.toList s.toList.length s.toList)

/-- Python `s.title()` over ASCII: a letter that follows a non-letter is
uppercased, every other letter is lowercased (per the Python documentation,
words start with an uppercase character and the remaining cased characters
are lowercase). -/
def pyTitleAux : Bool → List Char → List Char
  | _, [] => []
  | prevCased, c :: cs =>
    if c.isAlpha then
      (if prevCased then c.toLower else c.toUpper) :: pyTitleAux true cs
    else
      c :: pyTitleAux false cs

/-- Python `s.title()`. -/
def pyTitle (s : String) : String := String.mk (pyTitleAux false s.toList)

/-- Index of the first occurrence of `pat` in a character list:
Python `s.find(pat)` as an `Option`. -/
def findSubstr (pat : List Char) : List Char → Option Nat
  | [] => if pat = [] then some 0 else none
  | c :: cs => if pat.isPrefixOf (c :: cs) then some 0 else (findSubstr pat cs).map (· + 1)

/-! ### A Python `dict[str, str]` as an insertion-ordered association list -/

/-- A Python string dict: an association list with unique keys, in insertion
order. -/
abbrev Metadata := List (String × String)

/-- Python `k in d`. -/
def containsKey : Metadata → String → Bool
  | [], _ => false
  | p :: m, k => if p.1 = k then true else containsKey m k

/-- Python `d[k] = v`: update the value in place when the key exists,
otherwise append the new entry. -/
def dictInsert : Metadata → String → String → Metadata
  | [], k, v => [(k, v)]
  | p :: m, k, v => if p.1 = k then (k, v) :: m else p :: dictInsert m k v

/-- Python `d.get(k)`. -/
def metaGet : Metadata → String → Option String
  | [], _ => none
  | p :: m, k => if p.1 = k then some p.2 else metaGet m k

/-- `os.path.join` for the relative components the generator joins. -/
def joinPath (a b : String) : String := a ++ "/" ++ b

/-! ### Front-matter parser (`convert_to_html`) -/

/-- The metadata-scanning loop of `convert_to_html`: `count` counts the
delimiter lines seen so far; the loop breaks at the second delimiter; any
other line that splits at a colon adds one stripped key/value entry, and a
colon-less line is skipped. -/
def parseMeta : List String → Nat → Metadata → Metadata
  | [], _, m => m
  | l :: ls, count, m =>
    if pyStartsWith l "---" then
      if count + 1 = 2 then m else parseMeta ls (count + 1) m
    else
      match splitFirstColon l with
      | some kv => parseMeta ls count (dictInsert m (pyStrip kv.1) (pyStrip kv.2))
      | none => parseMeta ls count m

/-- `convert_to_html` on the line decomposition of the input: the metadata
mapping together with the raw body lines `lines[len(metadata) + 2:]`. -/
def parse_document (lines : List String) : Metadata × List String :=
  let m := parseMeta lines 0 []
  (m, lines.drop (m.length + 2))

/-- `convert_to_html`: split the input into lines, collect the metadata, and
hand the remaining lines to the Markdown converter (the abstract parameter
`md` standing for `markdown.markdown`). -/
def convert_to_html (md : String → String) (input_text : String) : Metadata × String :=
  let lines := pySplit input_text '\n'
  let m := parseMeta lines 0 []
  (m, md (pyJoin "\n" (lines.drop (m.length + 2))))

/-! ### Content renderer (`render`) -/

/-- The ways the unguarded `render` call can raise. -/
inductive RenderError where
  | templateNotFound : String → RenderError
  | duplicateContentArg : RenderError
deriving DecidableEq

/-- The Jinja2 `Environment.get_template` lookup: the templates directory as
an association list from template name to template source; a missing name
raises `TemplateNotFound`. -/
def lookupTemplate : List (String × String) → String → Option String
  | [], _ => none
  | t :: ts, n => if t.1 = n then some t.2 else lookupTemplate ts n

/-- `metadata.get('template', 'default.html')`. -/
def templateName (m : Metadata) : String :=
  (metaGet m "template").getD "default.html"

/-- `render`: resolve the template, then call
`template.render(content=html, **metadata)`.  A metadata key equal to
`content` makes the Python call itself raise `TypeError` (multiple values
for the keyword argument `content`) before the engine runs; otherwise the
engine receives the binding `content ↦ html` plus every metadata entry,
unchanged. -/
def render (engine : String → List (String × String) → String)
    (templates : List (String × String)) (metadata : Metadata) (html : String) :
    Except RenderError String :=
  match lookupTemplate templates (templateName metadata) with
  | none => Except.error (RenderError.templateNotFound (templateName metadata))
  | some t =>
    if containsKey metadata "content" then Except.error RenderError.duplicateContentArg
    else Except.ok (engine t (("content", html) :: metadata))

/-! ### Content injector (`inject_html`, `add_posts`, `add_utils`) -/

/-- Modelled from the spec: `core/html_editor.py` (class `HtmlEditor`, method
`add_html`) is imported by the generator but is not under `src/`.  Per the
anchor-find-and-splice contract of the spec: locate the first occurrence of
the anchor; with `prepend` insert the element immediately before it,
otherwise immediately after it; when the anchor is absent return the input
unchanged. -/
def spliceChars (html anchor element : List Char) (prepend : Bool) : List Char :=
  match findSubstr anchor html with
  | none => html
  | some i =>
    if prepend then html.take i ++ element ++ html.drop i
    else html.take (i + anchor.length) ++ element ++ html.drop (i + anchor.length)

/-- Modelled from the spec: `HtmlEditor(html, anchor, element, prepend).add_html()`. -/
def add_html (html anchor element : String) (prepend : Bool) : String :=
  String.mk (spliceChars html.toList anchor.toList element.toList prepend)

/-- `add_posts`: insert the post list after the configured target element. -/
def add_posts (post_list_target input_text post_list : String) : String :=
  add_html input_text post_list_target post_list false

/-- The script element `add_utils` inserts. -/
def devScript : String := "<script type='module' src=\"/js/dev.js\"></script>\n"

/-- `add_utils`: insert the development script immediately before the
closing body tag. -/
def add_utils (input_text : String) : String :=
  add_html input_text "</body>" devScript true

/-- `inject_html`: always run the post-list insertion; additionally run
`add_utils` exactly when `DEBUG` is true and `CLIENT_SIDE_ROUTING` is
false. -/
def inject_html (debug client_side_routing : Bool) (post_list_target : String)
    (output_text post_list : String) : String :=
  let updated_html := add_posts post_list_target output_text post_list
  if debug && !client_side_routing then add_utils updated_html else updated_html

/-! ### Output router (`determine_html_subdir`) -/

/-- `determine_html_subdir`: note that `metadata.get('template')` is `none`
when the key is absent, and `none ≠ some "default.html"`. -/
def determine_html_subdir (output_dir : String) (metadata : Metadata) : String :=
  if metaGet metadata "template" = some "post.html" then
    joinPath (joinPath output_dir "html") "blog"
  else if metaGet metadata "template" ≠ some "default.html" then
    joinPath output_dir "html"
  else
    output_dir

/-! ### Post index collector (`collect_posts`) -/

/-- One hyperlink fragment of `collect_posts`: the logical name is
`filename.split('.')[0]` and the link text `name.title().replace("-", " ")`,
with the fixed extension `html`. -/
def postLink (filename : String) : String :=
  let name := String.mk ((splitChar '.' filename.toList).headD [])
  "<a href='/html/blog/" ++ name ++ "." ++ "html" ++ "' class='post-link'>" ++
    pyReplace (pyTitle name) "-" " " ++ "</a>"

/-- `collect_posts` over the directory listing of the blog source directory
(every entry, unfiltered): fold the fragments onto an initially empty
accumulator string. -/
def collect_posts (listing : List String) : String :=
  listing.foldl (fun contents filename => contents ++ postLink filename) ""

/-! ### Build orchestrator (`build_site`, `convert_markdown`) -/

/-- The stages of `build_site`. -/
inductive Stage where
  | resetOutputTree
  | collectPostIndex
  | convertMainDir
  | convertBlogDir
  | copyStaticJS
  | copyStaticImg
  | compileStylesheets
deriving DecidableEq

/-- The order in which `build_site` runs its stages: `posts = collect_posts()`
is executed first, then `reset_dist()`, then the two `convert_markdown`
calls, the two `copy_static_files` calls and `compile_sass()`. -/
def build_site_trace : List Stage :=
  [Stage.collectPostIndex, Stage.resetOutputTree, Stage.convertMainDir,
   Stage.convertBlogDir, Stage.copyStaticJS, Stage.copyStaticImg,
   Stage.compileStylesheets]

/-- A source file of a directory listing: its filename and raw text. -/
structure SrcFile where
  name : String
  text : String

/-- The build-wide context: the abstract external collaborators and the
configuration values `convert_markdown` reads. -/
structure BuildCtx where
  engine : String → List (String × String) → String
  markdown : String → String
  templates : List (String × String)
  output_dir : String
  debug : Bool
  client_side_routing : Bool
  post_list_target : String

/-- `convert_markdown`: process the `.md` files of one directory listing in
order; a raised rendering error aborts the loop at once, keeping only the
writes already made.  Returns the `(path, contents)` writes together with
the error, if one was raised. -/
def convert_markdown (ctx : BuildCtx) (post_list : String) :
    List SrcFile → List (String × String) × Option RenderError
  | [] => ([], none)
  | f :: fs =>
    if pyEndsWith f.name ".md" then
      let parsed := convert_to_html ctx.markdown f.text
      match render ctx.engine ctx.templates parsed.1 parsed.2 with
      | Except.error e => ([], some e)
      | Except.ok output_text =>
        let amended := inject_html ctx.debug ctx.client_side_routing
          ctx.post_list_target output_text post_list
        let write_dir := determine_html_subdir ctx.output_dir parsed.1
        let rest := convert_markdown ctx post_list fs
        ((joinPath write_dir (pyReplace f.name ".md" ".html"), amended) :: rest.1, rest.2)
    else convert_markdown ctx post_list fs

/-! ### Helper notions and lemmas -/

/-- The effect of the scanning loop on the lines strictly inside the
metadata block (`count` already 1, no delimiter line among them). -/
def metaFold : Metadata → List String → Metadata
  | m, [] => m
  | m, l :: ls =>
    match splitFirstColon l with
    | some kv => metaFold (dictInsert m (pyStrip kv.1) (pyStrip kv.2)) ls
    | none => metaFold m ls

/-- The stripped key a line contributes to the metadata, when it has a colon. -/
def lineKey (l : String) : Option String :=
  (splitFirstColon l).map (fun kv => pyStrip kv.1)

lemma parseMeta_skip : ∀ (ls : List String) (count : Nat) (m : Metadata),
    (∀ l ∈ ls, pyStartsWith l "---" = false ∧ splitFirstColon l = none) →
    parseMeta ls count m = m
  | [], _, _, _ => rfl
  | l :: ls, count, m, h => by
    have hl := h l (List.mem_cons_self _ _)
    have ih := parseMeta_skip ls count m (fun x hx => h x (List.mem_cons_of_mem _ hx))
    simp [parseMeta, hl.1, hl.2, ih]

lemma parseMeta_block : ∀ (mid : List String) (closer : String) (rest : List String)
    (m : Metadata), pyStartsWith closer "---" = true →
    (∀ l ∈ mid, pyStartsWith l "---" = false) →
    parseMeta (mid ++ closer :: rest) 1 m = metaFold m mid
  | [], closer, rest, m, hcl, _ => by
    simp [parseMeta, hcl, metaFold]
  | l :: mid, closer, rest, m, hcl, hmid => by
    have hl := hmid l (List.mem_cons_self _ _)
    cases hsp : splitFirstColon l with
    | some kv =>
      have ih := parseMeta_block mid closer rest (dictInsert m (pyStrip kv.1) (pyStrip kv.2))
        hcl (fun x hx => hmid x (List.mem_cons_of_mem _ hx))
      simp [parseMeta, hl, hsp, metaFold, ih]
    | none =>
      have ih := parseMeta_block mid closer rest m hcl
        (fun x hx => hmid x (List.mem_cons_of_mem _ hx))
      simp [parseMeta, hl, hsp, metaFold, ih]

lemma dictInsert_length : ∀ (m : Metadata) (k v : String), containsKey m k = false →
    (dictInsert m k v).length = m.length + 1
  | [], _, _, _ => rfl
  | p :: m, k, v, h => by
    by_cases hk : p.1 = k
    · simp [containsKey, hk] at h
    · have hm : containsKey m k = false := by simpa [containsKey, hk] using h
      simp [dictInsert, hk, dictInsert_length m k v hm]

lemma containsKey_dictInsert (k' : String) : ∀ (m : Metadata) (k v : String), k' ≠ k →
    containsKey (dictInsert m k v) k' = containsKey m k'
  | [], k, v, hne => by
    have hns : ¬ k = k' := fun h => hne h.symm
    simp [dictInsert, containsKey, hns]
  | p :: m, k, v, hne => by
    by_cases hk : p.1 = k
    · simp [dictInsert, hk, containsKey, fun h : k = k' => hne h.symm]
    · simp [dictInsert, hk, containsKey, containsKey_dictInsert k' m k v hne]

lemma metaFold_length : ∀ (mid : List String) (m : Metadata),
    (mid.filterMap lineKey).Nodup →
    (∀ k ∈ mid.filterMap lineKey, containsKey m k = false) →
    (metaFold m mid).length = m.length + (mid.filterMap lineKey).length
  | [], m, _, _ => by simp [metaFold]
  | l :: mid, m, hnd, hdisj => by
    cases hsp : splitFirstColon l with
    | none =>
      have hlk : lineKey l = none := by simp [lineKey, hsp]
      have ih := metaFold_length mid m
        (by simpa [List.filterMap_cons, hlk] using hnd)
        (by intro k hk; exact hdisj k (by simpa [List.filterMap_cons, hlk] using hk))
      simp [metaFold, hsp, List.filterMap_cons, hlk, ih]
    | some kv =>
      have hlk : lineKey l = some (pyStrip kv.1) := by simp [lineKey, hsp]
      have hnd' : (mid.filterMap lineKey).Nodup ∧ pyStrip kv.1 ∉ mid.filterMap lineKey := by
        have := hnd
        rw [List.filterMap_cons, hlk] at this
        exact ⟨this.of_cons, (List.nodup_cons.mp this).1⟩
      have hhead : containsKey m (pyStrip kv.1) = false :=
        hdisj _ (by simp [List.filterMap_cons, hlk])
      have hdisj' : ∀ k ∈ mid.filterMap lineKey,
          containsKey (dictInsert m (pyStrip kv.1) (pyStrip kv.2)) k = false := by
        intro k hk
        have hne : k ≠ pyStrip kv.1 := fun h => hnd'.2 (h ▸ hk)
        rw [containsKey_dictInsert k m (pyStrip kv.1) (pyStrip kv.2) hne]
        exact hdisj k (by simp [List.filterMap_cons, hlk, hk])
      have ih := metaFold_length mid (dictInsert m (pyStrip kv.1) (pyStrip kv.2))
        hnd'.1 hdisj'
      have hlen := dictInsert_length m (pyStrip kv.1) (pyStrip kv.2) hhead
      simp only [metaFold, hsp, List.filterMap_cons, hlk, List.length_cons, ih, hlen]
      omega

lemma filterMap_filter_length : ∀ (mid : List String),
    (mid.filterMap lineKey).length
      + (mid.filter (fun l => (splitFirstColon l).isNone)).length = mid.length
  | [] => rfl
  | l :: mid => by
    have ih := filterMap_filter_length mid
    cases hsp : splitFirstColon l with
    | none =>
      have hlk : lineKey l = none := by simp [lineKey, hsp]
      simp [List.filterMap_cons, List.filter_cons, hlk, hsp]
      omega
    | some kv =>
      have hlk : lineKey l = some (pyStrip kv.1) := by simp [lineKey, hsp]
      simp [List.filterMap_cons, List.filter_cons, hlk, hsp]
      omega

lemma filterMap_length_of_all_some (mid : List String)
    (h : ∀ l ∈ mid, (splitFirstColon l).isSome = true) :
    (mid.filterMap lineKey).length = mid.length := by
  have hz : (mid.filter (fun l => (splitFirstColon l).isNone)).length = 0 := by
    rw [List.length_eq_zero, List.filter_eq_nil_iff]
    intro l hl
    have hs := h l hl
    simp only [Option.isNone_iff_eq_none]
    intro hn
    rw [hn] at hs
    simp at hs
  have := filterMap_filter_length mid
  omega

lemma drop_append_plus {α : Type} : ∀ (l₁ l₂ : List α) (n : Nat),
    (l₁ ++ l₂).drop (l₁.length + n) = l₂.drop n
  | [], l₂, n => by simp
  | x :: l₁, l₂, n => by
    have ih := drop_append_plus l₁ l₂ n
    have harith : (x :: l₁).length + n = (l₁.length + n) + 1 := by
      simp only [List.length_cons]
      omega
    rw [harith, List.cons_append, List.drop_succ_cons, ih]

lemma drop_body {α : Type} (opener closer : α) (mid rest : List α) :
    (opener :: (mid ++ closer :: rest)).drop (mid.length + 2) = rest := by
  simp

lemma findSubstr_here (pat suf : List Char) (hp : pat ≠ []) :
    findSubstr pat (pat ++ suf) = some 0 := by
  cases pat with
  | nil => exact absurd rfl hp
  | cons c cs =>
    have hpre : (c :: cs).isPrefixOf ((c :: cs) ++ suf) = true := by
      rw [List.isPrefixOf_iff_prefix]
      exact List.prefix_append _ _
    rw [List.cons_append] at hpre ⊢
    simp [findSubstr, hpre]

lemma findSubstr_append (pat suf : List Char) (hp : pat ≠ []) :
    ∀ (pre : List Char),
      (∀ i < pre.length, pat.isPrefixOf ((pre ++ (pat ++ suf)).drop i) = false) →
      findSubstr pat (pre ++ (pat ++ suf)) = some pre.length
  | [], _ => by simpa using findSubstr_here pat suf hp
  | a :: pre, hno => by
    have h0 : pat.isPrefixOf (a :: (pre ++ (pat ++ suf))) = false := by
      have := hno 0 (Nat.succ_pos _)
      simpa using this
    have ih := findSubstr_append pat suf hp pre (fun i hi => by
      have := hno (i + 1) (by simpa using Nat.succ_lt_succ hi)
      simpa using this)
    rw [List.cons_append]
    simp [findSubstr, h0, ih]

lemma take_append_self {α : Type} : ∀ (l₁ l₂ : List α), (l₁ ++ l₂).take l₁.length = l₁
  | [], _ => rfl
  | x :: l₁, l₂ => by simp [take_append_self l₁ l₂]

lemma drop_append_self {α : Type} (l₁ l₂ : List α) : (l₁ ++ l₂).drop l₁.length = l₂ := by
  simp

lemma spliceChars_before (pre suf pat el : List Char) (hp : pat ≠ [])
    (hno : ∀ i < pre.length, pat.isPrefixOf ((pre ++ (pat ++ suf)).drop i) = false) :
    spliceChars (pre ++ (pat ++ suf)) pat el true = pre ++ el ++ (pat ++ suf) := by
  unfold spliceChars
  rw [findSubstr_append pat suf hp pre hno]
  simp [take_append_self, drop_append_self]

lemma spliceChars_absent (html pat el : List Char) (prepend : Bool)
    (hnone : findSubstr pat html = none) :
    spliceChars html pat el prepend = html := by
  unfold spliceChars
  rw [hnone]

/-! ### Claim C1 — output routing -/

/-- C1 counterexample: the claim says a metadata mapping with no `template`
key routes to the output root, but `determine_html_subdir` sends the empty
mapping (where `metadata.get('template')` is `None`, which differs from
`'default.html'`) to the `html` subdirectory of the output root. -/
theorem C1_counterexample :
    metaGet ([] : Metadata) "template" = none ∧
    determine_html_subdir "dist" [] = "dist/html" ∧ "dist/html" ≠ "dist" := by
  refine ⟨rfl, rfl, by decide⟩

/-- C1 (amended): the output router is a pure function of the metadata with
this priority: `template = post.html` routes to `<output root>/html/blog`;
a `template` value that is neither `post.html` nor `default.html` — and
likewise an absent `template` key — routes to `<output root>/html`; only
`template = default.html` routes to the output root itself. -/
theorem C1_output_router (output_dir : String) (m : Metadata) :
    (metaGet m "template" = some "post.html" →
       determine_html_subdir output_dir m = joinPath (joinPath output_dir "html") "blog") ∧
    (metaGet m "template" ≠ some "post.html" ∧ metaGet m "template" ≠ some "default.html" →
       determine_html_subdir output_dir m = joinPath output_dir "html") ∧
    (metaGet m "template" = some "default.html" →
       determine_html_subdir output_dir m = output_dir) := by
  refine ⟨fun h => ?_, fun h => ?_, fun h => ?_⟩
  · simp [determine_html_subdir, h]
  · simp [determine_html_subdir, h.1, h.2]
  · simp [determine_html_subdir, h]

/-- C1 witness: the three routing cases at concrete metadata mappings. -/
theorem C1_output_router_witness :
    determine_html_subdir "dist" [("template", "post.html")]
      = joinPath (joinPath "dist" "html") "blog" ∧
    determine_html_subdir "dist" [("template", "custom.html")] = joinPath "dist" "html" ∧
    determine_html_subdir "dist" [("template", "default.html")] = "dist" :=
  ⟨(C1_output_router "dist" [("template", "post.html")]).1 (by decide),
   (C1_output_router "dist" [("template", "custom.html")]).2.1 ⟨by decide, by decide⟩,
   (C1_output_router "dist" [("template", "default.html")]).2.2 (by decide)⟩

/-! ### Claim C2 — build stage order -/

/-- C2 counterexample: `build_site` does not run ResetOutputTree before
CollectPostIndex — `posts = collect_posts()` is its first statement and
`reset_dist()` only runs after it, so the claimed stage list differs from
the actual one and the reset does not precede the collection. -/
theorem C2_counterexample :
    build_site_trace ≠
      [Stage.resetOutputTree, Stage.collectPostIndex, Stage.convertMainDir,
       Stage.convertBlogDir, Stage.copyStaticJS, Stage.copyStaticImg,
       Stage.compileStylesheets] ∧
    ¬ build_site_trace.indexOf Stage.resetOutputTree <
        build_site_trace.indexOf Stage.collectPostIndex := by
  constructor
  · decide
  · decide

/-- C2 (amended): in every build the orchestrator's stages run in the order
CollectPostIndex, then ResetOutputTree, then ConvertMainDir, ConvertBlogDir,
CopyStaticJS, CopyStaticImg, CompileStylesheets; in particular the post
index is collected before the output-tree reset. -/
theorem C2_build_order :
    build_site_trace =
      [Stage.collectPostIndex, Stage.resetOutputTree, Stage.convertMainDir,
       Stage.convertBlogDir, Stage.copyStaticJS, Stage.copyStaticImg,
       Stage.compileStylesheets] ∧
    build_site_trace.indexOf Stage.collectPostIndex <
      build_site_trace.indexOf Stage.resetOutputTree := by
  refine ⟨rfl, by decide⟩

/-! ### Claim C3 — documents without a delimiter line -/

/-- C3 counterexample: the document "a: b" contains no line beginning with
the delimiter, yet the parser returns the nonempty metadata mapping
`{a: b}` — colon-containing lines become entries even without delimiters. -/
theorem C3_counterexample :
    (∀ l ∈ pySplit "a: b" '\n', pyStartsWith l "---" = false) ∧
    (convert_to_html id "a: b").1 ≠ [] := by
  constructor
  · decide
  · decide

/-- C3 (amended): for every document that contains no delimiter line and no
colon-containing line, the parser returns an empty metadata mapping and the
body offset consumes exactly 2 lines (the body is the input minus its first
two lines). -/
theorem C3_no_block (lines : List String)
    (h : ∀ l ∈ lines, pyStartsWith l "---" = false ∧ splitFirstColon l = none) :
    parse_document lines = ([], lines.drop 2) := by
  have hm : parseMeta lines 0 [] = [] := parseMeta_skip lines 0 [] h
  simp [parse_document, hm]

/-- C3 witness: a three-line document with no delimiters and no colons. -/
theorem C3_no_block_witness :
    parse_document ["hello", "world", "body"] = ([], ["body"]) :=
  C3_no_block ["hello", "world", "body"] (by decide)

/-! ### Claim C4 — render variable bindings -/

/-- C4 counterexample: when the metadata itself contains the key `content`,
the call `template.render(content=html, **metadata)` raises `TypeError`
(multiple values for the keyword argument), so rendering does not succeed —
there is no last-write-wins recovery.  Here the template resolves fine. -/
theorem C4_counterexample :
    render (fun t _ => t) [("default.html", "TPL")] [("content", "x")] "B"
      = Except.error RenderError.duplicateContentArg := rfl

/-- C4 (amended): when the named template resolves and no metadata key
equals `content`, the engine is invoked with the HTML body bound to the
variable `content` and every metadata entry passed through unchanged as an
additional named variable; when metadata does contain the key `content`,
the render call raises `TypeError` and rendering fails instead of applying
last-write-wins. -/
theorem C4_render_bindings (engine : String → List (String × String) → String)
    (templates : List (String × String)) (m : Metadata) (html t : String)
    (hres : lookupTemplate templates (templateName m) = some t) :
    (containsKey m "content" = false →
       render engine templates m html = Except.ok (engine t (("content", html) :: m))) ∧
    (containsKey m "content" = true →
       render engine templates m html = Except.error RenderError.duplicateContentArg) := by
  constructor
  · intro h
    simp [render, hres, h]
  · intro h
    simp [render, hres, h]

/-- C4 witness: rendering a document whose metadata is `{author: cyn}`
against a resolvable default template. -/
theorem C4_render_bindings_witness :
    render (fun t kw => pyJoin ";" (kw.map (fun p => p.1 ++ "=" ++ p.2)) ++ t)
      [("default.html", "T")] [("author", "cyn")] "B"
      = Except.ok (pyJoin ";"
          ([("content", "B"), ("author", "cyn")].map (fun p => p.1 ++ "=" ++ p.2)) ++ "T") :=
  (C4_render_bindings (fun t kw => pyJoin ";" (kw.map (fun p => p.1 ++ "=" ++ p.2)) ++ t)
    [("default.html", "T")] [("author", "cyn")] "B" "T" (by decide)).1 (by decide)

/-! ### Claims C5 and C6 — body offset of a metadata block -/

/-- C5 counterexample: in the document "---, a: 1, a: 2, ---, BODY" every
line strictly between the two delimiters contains a colon, yet the duplicate
key `a` makes `len(metadata) + 2 = 3` while the line index following the
closing delimiter is `4`, so the body keeps the closing delimiter line. -/
theorem C5_counterexample :
    (∀ l ∈ ["a: 1", "a: 2"],
       pyStartsWith l "---" = false ∧ (splitFirstColon l).isSome = true) ∧
    (parse_document ["---", "a: 1", "a: 2", "---", "BODY"]).1.length + 2 ≠ 4 ∧
    (parse_document ["---", "a: 1", "a: 2", "---", "BODY"]).2 ≠ ["BODY"] := by
  refine ⟨by decide, by decide, by decide⟩

/-- C5 (amended): for every document whose metadata block starts at the
first line, whose every line strictly between the two delimiter lines
contains a colon, and whose stripped keys are pairwise distinct, the
computed body offset `len(metadata) + 2` equals the true line index
immediately following the closing delimiter, and the body consists exactly
of the lines after the closing delimiter. -/
theorem C5_colon_block (opener closer : String) (mid rest : List String)
    (hop : pyStartsWith opener "---" = true)
    (hcl : pyStartsWith closer "---" = true)
    (hmid : ∀ l ∈ mid, pyStartsWith l "---" = false ∧ (splitFirstColon l).isSome = true)
    (hnd : (mid.filterMap lineKey).Nodup) :
    (parse_document (opener :: (mid ++ closer :: rest))).1.length + 2 = mid.length + 2 ∧
    (parse_document (opener :: (mid ++ closer :: rest))).2 = rest := by
  have hstep : parseMeta (opener :: (mid ++ closer :: rest)) 0 [] =
      parseMeta (mid ++ closer :: rest) 1 [] := by
    simp [parseMeta, hop]
  have hblock := parseMeta_block mid closer rest [] hcl (fun l hl => (hmid l hl).1)
  have hall : ∀ l ∈ mid, (splitFirstColon l).isSome = true := fun l hl => (hmid l hl).2
  have hlen : (parseMeta (opener :: (mid ++ closer :: rest)) 0 []).length = mid.length := by
    rw [hstep, hblock, metaFold_length mid [] hnd (by intro k _; rfl)]
    simpa using filterMap_length_of_all_some mid hall
  constructor
  · simp [parse_document, hlen]
  · simp only [parse_document, hlen]
    exact drop_body opener closer mid rest

/-- C5 witness: a block of two distinct colon entries followed by one body
line. -/
theorem C5_colon_block_witness :
    (parse_document ["---", "title: hi", "template: post.html", "---", "B"]).1.length + 2
      = 2 + 2 ∧
    (parse_document ["---", "title: hi", "template: post.html", "---", "B"]).2 = ["B"] :=
  C5_colon_block "---" "---" ["title: hi", "template: post.html"] ["B"]
    (by decide) (by decide) (by decide) (by decide)

/-- C6 counterexample: the block "---, a: 1, a: 2, <blank>, ---, BODY" has
exactly one skipped (colon-less) line, but the computed offset is 3 while
the line index following the closing delimiter is 5: the deficit is 2, not
1, because the duplicate key also desynchronizes the offset. -/
theorem C6_counterexample :
    (["a: 1", "a: 2", ""].filter (fun l => (splitFirstColon l).isNone)).length = 1 ∧
    (parse_document ["---", "a: 1", "a: 2", "", "---", "BODY"]).1.length + 2 = 3 ∧
    5 - ((parse_document ["---", "a: 1", "a: 2", "", "---", "BODY"]).1.length + 2) ≠ 1 := by
  refine ⟨by decide, by decide, by decide⟩

/-- C6 (amended): for every document whose metadata block starts at the
first line, contains at least one colon-less (silently skipped) line
between the delimiters, and whose colon lines have pairwise distinct
stripped keys, the computed body offset `len(metadata) + 2` is less than
the true line index following the closing delimiter (`mid.length + 2`) by
exactly the number of skipped lines, and the body text therefore starts
that many lines before the line following the closing delimiter. -/
theorem C6_skipped_lines (opener closer : String) (mid rest : List String)
    (hop : pyStartsWith opener "---" = true)
    (hcl : pyStartsWith closer "---" = true)
    (hmid : ∀ l ∈ mid, pyStartsWith l "---" = false)
    (hskip : 1 ≤ (mid.filter (fun l => (splitFirstColon l).isNone)).length)
    (hnd : (mid.filterMap lineKey).Nodup) :
    (parse_document (opener :: (mid ++ closer :: rest))).1.length + 2
      = (mid.length + 2) - (mid.filter (fun l => (splitFirstColon l).isNone)).length ∧
    (parse_document (opener :: (mid ++ closer :: rest))).2
      = mid.drop (mid.length
          - (mid.filter (fun l => (splitFirstColon l).isNone)).length + 1)
          ++ closer :: rest := by
  have hstep : parseMeta (opener :: (mid ++ closer :: rest)) 0 [] =
      parseMeta (mid ++ closer :: rest) 1 [] := by
    simp [parseMeta, hop]
  have hblock := parseMeta_block mid closer rest [] hcl hmid
  have hpart := filterMap_filter_length mid
  have hlen : (parseMeta (opener :: (mid ++ closer :: rest)) 0 []).length
      = (mid.filterMap lineKey).length := by
    rw [hstep, hblock, metaFold_length mid [] hnd (by intro k _; rfl)]
    simp
  constructor
  · simp only [parse_document, hlen]
    omega
  · simp only [parse_document, hlen]
    have hle : (mid.filterMap lineKey).length + 1 ≤ mid.length + 1 := by omega
    have : (opener :: (mid ++ closer :: rest)).drop ((mid.filterMap lineKey).length + 2)
        = (mid ++ closer :: rest).drop ((mid.filterMap lineKey).length + 1) := by
      exact List.drop_succ_cons
    rw [this, List.drop_append_eq_append_drop]
    have hz : (mid.filterMap lineKey).length + 1 - mid.length = 0 := by omega
    rw [hz]
    have hidx : (mid.filterMap lineKey).length + 1
        = mid.length - (mid.filter (fun l => (splitFirstColon l).isNone)).length + 1 := by
      omega
    rw [hidx]
    simp

/-- C6 witness: a block with one colon entry and one skipped line; the
offset is 3 where the line after the closing delimiter is 4, and the body
starts one line early, on the closing delimiter itself. -/
theorem C6_skipped_lines_witness :
    (parse_document ["---", "a: 1", "x", "---", "B"]).1.length + 2 = (2 + 2) - 1 ∧
    (parse_document ["---", "a: 1", "x", "---", "B"]).2 = ["---", "B"] :=
  C6_skipped_lines "---" "---" ["a: 1", "x"] ["B"]
    (by decide) (by decide) (by decide) (by decide) (by decide)

/-! ### Claim C7 — conditional dev-utility injection -/

/-- C7 counterexample: with debug true and client-side routing false the
claim requires the script tag to be inserted, but on an HTML string that
does not contain the `</body>` anchor the step inserts nothing — the output
equals the input and contains no occurrence of the dev script. -/
theorem C7_counterexample :
    inject_html true false "@@" "x" "P" = "x" ∧
    findSubstr devScript.toList ("x".toList) = none := by
  refine ⟨rfl, by decide⟩

/-- C7 (amended): the dev-utility step runs if and only if debug is true and
client-side routing is false; when it runs it inserts the script tag
immediately before the first occurrence of the `</body>` anchor, and it
leaves the HTML unchanged when that anchor is absent; for the other three
flag combinations the step leaves the HTML unchanged. -/
theorem C7_dev_injection (debug csr : Bool) (target html posts : String)
    (pre suf : List Char)
    (hno : ∀ i < pre.length,
      "</body>".toList.isPrefixOf ((pre ++ ("</body>".toList ++ suf)).drop i) = false) :
    (inject_html debug csr target html posts =
       if debug && !csr then add_utils (add_posts target html posts)
       else add_posts target html posts) ∧
    (add_utils (String.mk (pre ++ ("</body>".toList ++ suf)))
       = String.mk (pre ++ (devScript.toList ++ ("</body>".toList ++ suf)))) ∧
    (∀ h : String, findSubstr "</body>".toList h.toList = none → add_utils h = h) := by
  refine ⟨rfl, ?_, ?_⟩
  · have hsp := spliceChars_before pre suf ("</body>".toList) (devScript.toList)
      (by decide) hno
    show String.mk (spliceChars (pre ++ ("</body>".toList ++ suf)) ("</body>".toList)
        (devScript.toList) true) = _
    rw [hsp, List.append_assoc]
  · intro h hnone
    show String.mk (spliceChars h.toList ("</body>".toList) (devScript.toList) true) = h
    rw [spliceChars_absent _ _ _ _ hnone]
    rfl

/-- C7 witness: debug mode without client-side routing on an HTML string
whose closing body tag occurs once, at the end. -/
theorem C7_dev_injection_witness :
    (inject_html true false "@@" "<body>A</body>" "P" =
       if true && !false then add_utils (add_posts "@@" "<body>A</body>" "P")
       else add_posts "@@" "<body>A</body>" "P") ∧
    (add_utils (String.mk ("<body>A".toList ++ ("</body>".toList ++ [])))
       = String.mk ("<body>A".toList ++ (devScript.toList ++ ("</body>".toList ++ [])))) ∧
    (∀ h : String, findSubstr "</body>".toList h.toList = none → add_utils h = h) :=
  C7_dev_injection true false "@@" "<body>A</body>" "P" "<body>A".toList [] (by decide)

/-! ### Claim C8 — a missing template aborts the conversion loop -/

/-- C8: if the template named by a document's metadata (or `default.html`
when the `template` key is absent) cannot be resolved, the unguarded render
call fails with the template-resolution error, the error propagates out of
the per-file loop, and the loop's outcome consists of exactly the writes of
the files before the failing one — no later document is converted or
written. -/
theorem C8_template_failure_aborts (ctx : BuildCtx) (post_list : String) :
    ∀ (pre : List SrcFile) (f : SrcFile) (post : List SrcFile),
    pyEndsWith f.name ".md" = true →
    lookupTemplate ctx.templates (templateName (convert_to_html ctx.markdown f.text).1)
      = none →
    (convert_markdown ctx post_list pre).2 = none →
    convert_markdown ctx post_list (pre ++ f :: post)
      = ((convert_markdown ctx post_list pre).1,
         some (RenderError.templateNotFound
           (templateName (convert_to_html ctx.markdown f.text).1)))
  | [], f, post, hmd, hfail, _ => by
    simp [convert_markdown, hmd, render, hfail]
  | g :: pre, f, post, hmd, hfail, hpre => by
    cases hg : pyEndsWith g.name ".md" with
    | false =>
      have hpre' : (convert_markdown ctx post_list pre).2 = none := by
        simpa [convert_markdown, hg] using hpre
      have ih := C8_template_failure_aborts ctx post_list pre f post hmd hfail hpre'
      simpa [convert_markdown, hg] using ih
    | true =>
      cases hr : render ctx.engine ctx.templates (convert_to_html ctx.markdown g.text).1
          (convert_to_html ctx.markdown g.text).2 with
      | error e =>
        simp [convert_markdown, hg, hr] at hpre
      | ok out =>
        have hpre' : (convert_markdown ctx post_list pre).2 = none := by
          simpa [convert_markdown, hg, hr] using hpre
        have ih := C8_template_failure_aborts ctx post_list pre f post hmd hfail hpre'
        simp [convert_markdown, hg, hr, ih]

/-- Build context for the C8 witness: an empty templates directory. -/
def demoCtx : BuildCtx where
  engine := fun t _ => t
  markdown := id
  templates := []
  output_dir := "dist"
  debug := false
  client_side_routing := false
  post_list_target := "@@"

/-- C8 witness: with no resolvable templates, a two-file listing aborts on
the first file — no write happens and the second file is never reached. -/
theorem C8_template_failure_aborts_witness :
    convert_markdown demoCtx "" [⟨"a.md", "A"⟩, ⟨"b.md", "B"⟩]
      = ([], some (RenderError.templateNotFound "default.html")) :=
  C8_template_failure_aborts demoCtx "" [] ⟨"a.md", "A"⟩ [⟨"b.md", "B"⟩]
    (by decide) rfl rfl

/-! ### Claim C9 — the post index fragments -/

/-- C9: `collect_posts` emits, for each directory entry (unfiltered by
extension), one anchor fragment whose href is `/html/blog/<name>.html` with
`<name>` the filename text before its first dot and whose text is the name
with each word capitalized (Python `title()`) and hyphens then replaced by
spaces, all fragments concatenated with no separator in directory-listing
order; on `my-first-post` the link text is `My First Post`. -/
theorem C9_collect_posts (listing : List String) :
    collect_posts listing = String.join (listing.map postLink) ∧
    postLink "my-first-post.md"
      = "<a href='/html/blog/my-first-post.html' class='post-link'>My First Post</a>" := by
  constructor
  · show _ = (listing.map postLink).foldl (fun r s => r ++ s) ""
    rw [List.foldl_map]
    rfl
  · decide

/-! ### Claim C10 — `.md` replaced everywhere in the output filename -/

/-- Build context for the C10 theorem: a resolvable default template. -/
def defaultCtx : BuildCtx where
  engine := fun t _ => t
  markdown := id
  templates := [("default.html", "T")]
  output_dir := "dist"
  debug := false
  client_side_routing := false
  post_list_target := "@@"

/-- C10: the output filename is the source filename with every occurrence of
the substring ".md" replaced by ".html" — not only the trailing extension:
converting `a.md.md` writes `a.html.html` and `notes.mdx.md` writes
`notes.htmlx.html` (both route to `dist/html` having no metadata). -/
theorem C10_output_filename :
    ((convert_markdown defaultCtx "" [⟨"a.md.md", "X"⟩, ⟨"notes.mdx.md", "Y"⟩]).1.map
        Prod.fst)
      = ["dist/html/a.html.html", "dist/html/notes.htmlx.html"] ∧
    pyReplace "a.md.md" ".md" ".html" = "a.html.html" ∧
    pyReplace "notes.mdx.md" ".md" ".html" = "notes.htmlx.html" := by
  refine ⟨by decide, by decide, by decide⟩

end SiteGen
